import Mathlib

/-!
Shallow embedding of `detect_shiftjis.py` (Shift_JIS detection and
backed-up conversion to UTF-8).

Byte buffers are `List Nat`; the filesystem is a partial map from path
strings to byte contents.  OS- and codec-level primitives that the script
calls (`os.path.join`, `os.path.relpath`, `os.makedirs`, file writes,
`bytes.decode`, `str.encode('utf-8')`, and the optional `chardet`
classifier) are environment parameters, so theorems quantify over their
behaviour; a fallible primitive returns `Option`/`Bool` (a `none`/`false`
models a raised exception, which the script catches).  Confidence scores
are modelled as exact rationals.
-/

/-- Filesystem: maps a path to the byte content of the file there, if any. -/
def FS : Type := String → Option (List Nat)

/-- Pointwise update of the filesystem at one path (a successful whole-file write). -/
def updateFS (fs : FS) (p : String) (d : List Nat) : FS :=
  fun q => if q = p then some d else fs q

/-- Python truthiness of an optional string argument (`None` and `''` are falsy),
as used by `if backup_root and root:`. -/
def optTruthy : Option String → Bool
  | none => false
  | some s => s != ""

/-- Characters of the last path component: `os.path.basename` (POSIX). -/
def basename (s : String) : String :=
  ⟨(s.toList.reverse.takeWhile (fun c => c != '/')).reverse⟩

/-- Model of `os.path.dirname` (POSIX): everything before the last slash, with
trailing slashes stripped unless the result is all slashes. -/
def dirname (s : String) : String :=
  let head := (s.toList.reverse.dropWhile (fun c => c != '/')).reverse
  if head.isEmpty then ⟨head⟩
  else if head.all (fun c => c == '/') then ⟨head⟩
  else ⟨(head.reverse.dropWhile (fun c => c == '/')).reverse⟩

/-- Environment of OS/codec primitives the script calls.
`relpathFn p r` models `os.path.relpath(p, r)` (`none` = raised, caught by
the script); `decodeFn data enc strict` models `data.decode(enc)` resp.
`data.decode(enc, errors='replace')` (`none` = raised); `mkdirOk`/`writeOk`
say whether `os.makedirs` resp. opening-and-writing a given path succeeds;
`encodeUtf8` models `text.encode('utf-8')`. -/
structure ConvEnv where
  relpathFn : String → String → Option String
  joinFn : String → String → String
  mkdirOk : String → Bool
  writeOk : String → Bool
  decodeFn : List Nat → String → Bool → Option String
  encodeUtf8 : String → List Nat

/-- Backup path derivation of `backup_and_convert_to_utf8` (lines 85-98):
with a truthy `backup_root` and `root`, `os.path.join(backup_root,
os.path.relpath(path, root)) + '.jis'` (falling back to `basename` when
`relpath` raises); otherwise the sibling `path + '.jis'`. -/
def backup_path (env : ConvEnv) (path : String) (root backup_root : Option String) : String :=
  if optTruthy backup_root && optTruthy root then
    env.joinFn (backup_root.getD "")
      ((env.relpathFn path (root.getD "")).getD (basename path)) ++ ".jis"
  else
    path ++ ".jis"

/-- Message of the `read error` branch (exception text elided). -/
def readErrMsg : String := "read error"

/-- Message of the `backup dir create error` branch (exception text elided). -/
def backupDirErrMsg : String := "backup dir create error"

/-- Message of the `backup error` branch (exception text elided). -/
def backupErrMsg : String := "backup error"

/-- Exact message of the decode-exhausted branch (line 128). -/
def decodeErrMsg : String := "decode error: unable to decode data with shift_jis/cp932"

/-- Message of the `write error` branch (exception text elided). -/
def writeErrMsg : String := "write error"

/-- Exact success message (line 138). -/
def successMsg (backup_full : String) : String :=
  "backed up to " ++ backup_full ++ " and converted to UTF-8"

/-- The decode fallback loop of `backup_and_convert_to_utf8` (lines 110-125):
walk the candidate list, skip encodings already in `tried`, try strict
decode then replace decode, stop at the first success. -/
def decodeLoop (dec : List Nat → String → Bool → Option String) (data : List Nat) :
    List String → List String → Option String
  | [], _ => none
  | enc :: rest, tried =>
    if tried.contains enc then decodeLoop dec data rest tried
    else
      match dec data enc true with
      | some t => some t
      | none =>
        match dec data enc false with
        | some t => some t
        | none => decodeLoop dec data rest (tried ++ [enc])

/-- Model of `backup_and_convert_to_utf8(path, root, backup_root, src_encoding)`
(lines 71-138): read the file, derive the backup path (creating its
directory when a backup root is in use), write the raw bytes to the backup
path, decode via the fallback loop, and overwrite the original with the
UTF-8 encoding of the decoded text.  Returns the `(success, message)` pair
together with the resulting filesystem. -/
def backup_and_convert_to_utf8 (env : ConvEnv) (fs : FS) (path : String)
    (root backup_root : Option String) (src_encoding : String) :
    (Bool × String) × FS :=
  match fs path with
  | none => ((false, readErrMsg), fs)
  | some data =>
    let backup_full := backup_path env path root backup_root
    if optTruthy backup_root && optTruthy root
        && !(env.mkdirOk (dirname backup_full)) then
      ((false, backupDirErrMsg), fs)
    else if !(env.writeOk backup_full) then
      ((false, backupErrMsg), fs)
    else
      let fs1 := updateFS fs backup_full data
      match decodeLoop env.decodeFn data [src_encoding, "cp932", "shift_jis"] [] with
      | none => ((false, decodeErrMsg), fs1)
      | some text =>
        if env.writeOk path then
          ((true, successMsg backup_full), updateFS fs1 path (env.encodeUtf8 text))
        else
          ((false, writeErrMsg), fs1)

/-- Model of `detect_shift_jis_bytes(data)` (lines 32-38): does a strict
`shift_jis` decode of `data` succeed? -/
def detect_shift_jis_bytes (dec : List Nat → String → Bool → Option String)
    (data : List Nat) : Bool :=
  (dec data "shift_jis" true).isSome

/-- Python `x or 'unknown'` on the optional encoding label. -/
def orUnknown : Option String → String
  | none => "unknown"
  | some s => if s = "" then "unknown" else s

/-- Model of `detect_with_chardet(data)` (lines 41-45): the optional statistical
classifier, modelled as an optional function from bytes to
`(r.get('encoding'), confidence)`. -/
def detect_with_chardet (ch : Option (List Nat → Option String × ℚ))
    (data : List Nat) : String × ℚ :=
  match ch with
  | none => ("unknown", 0)
  | some f =>
    let r := f data
    (orUnknown r.1, r.2)

/-- Model of `str.lower()` on an encoding label (labels are ASCII, where Python's
`lower` and per-character ASCII lowercasing agree). -/
def pyLower (s : String) : String := ⟨s.toList.map Char.toLower⟩

/-- The alias test of line 58: lowercase the label, delete hyphens, compare
with the literal tuple `('shiftjis', 'shift_jis', 'sjis', 'cp932')`. -/
def sjisAliasHit (enc : String) : Bool :=
  let n : String := ⟨(pyLower enc).toList.filter (fun c => c != '-')⟩
  n == "shiftjis" || n == "shift_jis" || n == "sjis" || n == "cp932"

/-- The normalization the specification describes instead: lowercase and
delete both hyphens and underscores, compare with
the aliases shiftjis, sjis, cp932. -/
def specAliasHit (enc : String) : Bool :=
  let n : String := ⟨(pyLower enc).toList.filter (fun c => c != '-' && c != '_')⟩
  n == "shiftjis" || n == "sjis" || n == "cp932"

/-- Classification logic of `analyze_file` (lines 56-68) after the byte
read: with the classifier present, the alias test, then the
low-confidence heuristic probe, then the classifier label; without it,
the bare decode probe.  Returns the `(result, confidence)` pair. -/
def analyze_file_bytes (ch : Option (List Nat → Option String × ℚ))
    (dec : List Nat → String → Bool → Option String) (data : List Nat) : String × ℚ :=
  match ch with
  | some _ =>
    let ec := detect_with_chardet ch data
    if ec.1 != "" && sjisAliasHit ec.1 then ("Shift_JIS", ec.2)
    else if ec.2 < (0.6 : ℚ) then
      if detect_shift_jis_bytes dec data then ("Shift_JIS(heuristic)", ec.2)
      else (if ec.1 = "" then "unknown" else ec.1, ec.2)
    else (if ec.1 = "" then "unknown" else ec.1, ec.2)
  | none =>
    if detect_shift_jis_bytes dec data then ("Shift_JIS", 1) else ("not Shift_JIS", 0)

/-- Does `needle` occur at the head of `hay`? (list version of Python
substring matching at a fixed offset). -/
def listLeads : List Char → List Char → Bool
  | [], _ => true
  | _ :: _, [] => false
  | a :: as, b :: bs => a == b && listLeads as bs

/-- Does `needle` occur anywhere in `hay`? -/
def listHasSub : List Char → List Char → Bool
  | n, [] => n.isEmpty
  | n, b :: bs => listLeads n (b :: bs) || listHasSub n bs

/-- Python `needle in hay` on strings. -/
def strHasSub (hay needle : String) : Bool :=
  listHasSub needle.toList hay.toList

/-- The conversion trigger of `main` (lines 178-180): convert when
`--convert` was given and the verdict label contains `Shift_JIS`,
`MacRoman` or `Windows-1252` as a substring. -/
def shouldConvert (do_convert : Bool) (result : String) : Bool :=
  do_convert && (strHasSub result "Shift_JIS" || strHasSub result "MacRoman"
    || strHasSub result "Windows-1252")

/-! ### Concrete environments and filesystems used to instantiate theorems -/

/-- A fully succeeding environment whose decoder fails strict decodes and
succeeds replace decodes of `shift_jis`. -/
def envW : ConvEnv where
  relpathFn := fun p r => some (p ++ "@" ++ r)
  joinFn := fun a b => a ++ "/" ++ b
  mkdirOk := fun _ => true
  writeOk := fun _ => true
  decodeFn := fun _ e strict => if e == "shift_jis" && !strict then some "x" else none
  encodeUtf8 := fun s => s.toList.map Char.toNat

/-- Like `envW` but every file write fails. -/
def envFailWrite : ConvEnv where
  relpathFn := fun p r => some (p ++ "@" ++ r)
  joinFn := fun a b => a ++ "/" ++ b
  mkdirOk := fun _ => true
  writeOk := fun _ => false
  decodeFn := fun _ e strict => if e == "shift_jis" && !strict then some "x" else none
  encodeUtf8 := fun s => s.toList.map Char.toNat

/-- A one-file filesystem. -/
def fsW : FS := fun p => if p = "A.java" then some [65] else none

/-! ### Theorems -/

/-- C9: backup path derivation is a deterministic function of its inputs;
with both roots supplied (truthy) and `relpath` succeeding it is
`join(backup_root, relpath(path, root)) + ".jis"`, otherwise it is
`path + ".jis"`. -/
theorem backup_path_derivation (env : ConvEnv) (path : String)
    (root backup_root : Option String) :
    backup_path env path root backup_root = backup_path env path root backup_root ∧
    (∀ r b rel, root = some r → backup_root = some b → r ≠ "" → b ≠ "" →
      env.relpathFn path r = some rel →
      backup_path env path root backup_root = env.joinFn b rel ++ ".jis") ∧
    ((optTruthy backup_root && optTruthy root) = false →
      backup_path env path root backup_root = path ++ ".jis") := by
  refine ⟨rfl, ?_, ?_⟩
  · rintro r b rel rfl rfl hr hb hrel
    simp [backup_path, optTruthy, hrel, hr, hb]
  · intro h
    simp [backup_path, h]

/-- Witness for C9 at concrete inputs. -/
theorem backup_path_derivation_witness :
    backup_path envW "r/A.java" (some "r") (some "b") = "b/r/A.java@r.jis" ∧
    backup_path envW "A.java" none none = "A.java.jis" := by
  constructor
  · exact (backup_path_derivation envW "r/A.java" (some "r") (some "b")).2.1
      "r" "b" "r/A.java@r" rfl rfl (by decide) (by decide) rfl
  · exact (backup_path_derivation envW "A.java" none none).2.2 rfl

/-- C1: if backup-directory creation fails, or the write of the raw bytes
to the backup path fails, the conversion returns `success = false` and the
original file's bytes are unchanged. -/
theorem conversion_backup_failure_preserves_original
    (env : ConvEnv) (fs : FS) (path : String) (root backup_root : Option String)
    (src_encoding : String)
    (hfail : ((optTruthy backup_root && optTruthy root) = true ∧
        env.mkdirOk (dirname (backup_path env path root backup_root)) = false) ∨
      env.writeOk (backup_path env path root backup_root) = false) :
    (backup_and_convert_to_utf8 env fs path root backup_root src_encoding).1.1 = false ∧
    (backup_and_convert_to_utf8 env fs path root backup_root src_encoding).2 path
      = fs path := by
  unfold backup_and_convert_to_utf8
  cases hfp : fs path with
  | none => exact ⟨rfl, hfp⟩
  | some data =>
    rcases Bool.eq_false_or_eq_true (optTruthy backup_root && optTruthy root) with h1 | h1
    · rcases Bool.eq_false_or_eq_true
        (env.mkdirOk (dirname (backup_path env path root backup_root))) with hm | hm
      · have h2 : env.writeOk (backup_path env path root backup_root) = false := by
          rcases hfail with ⟨_, hmf⟩ | h2
          · rw [hm] at hmf; exact absurd hmf (by simp)
          · exact h2
        simp [h1, hm, h2, hfp]
      · simp [h1, hm, hfp]
    · have h2 : env.writeOk (backup_path env path root backup_root) = false := by
        rcases hfail with ⟨ht, _⟩ | h2
        · rw [h1] at ht; exact absurd ht (by simp)
        · exact h2
      simp [h1, h2, hfp]

/-- Witness for C1: a failing backup write yields `success = false` and
leaves the original file intact. -/
theorem conversion_backup_failure_witness :
    (backup_and_convert_to_utf8 envFailWrite fsW "A.java" none none "shift_jis").1.1
      = false ∧
    (backup_and_convert_to_utf8 envFailWrite fsW "A.java" none none "shift_jis").2 "A.java"
      = fsW "A.java" :=
  conversion_backup_failure_preserves_original envFailWrite fsW "A.java" none none
    "shift_jis" (Or.inr rfl)

/-- C2: a successful conversion reports the backup path in its message and
the file at the backup path holds exactly the pre-conversion raw bytes. -/
theorem conversion_success_backup_integrity
    (env : ConvEnv) (fs : FS) (path : String) (root backup_root : Option String)
    (src_encoding : String) (data : List Nat)
    (hdata : fs path = some data)
    (hne : backup_path env path root backup_root ≠ path)
    (hsucc : (backup_and_convert_to_utf8 env fs path root backup_root src_encoding).1.1
      = true) :
    (backup_and_convert_to_utf8 env fs path root backup_root src_encoding).1.2 =
      successMsg (backup_path env path root backup_root) ∧
    (backup_and_convert_to_utf8 env fs path root backup_root src_encoding).2
      (backup_path env path root backup_root) = some data := by
  unfold backup_and_convert_to_utf8 at hsucc ⊢
  simp only [hdata] at hsucc ⊢
  rcases Bool.eq_false_or_eq_true
      (optTruthy backup_root && optTruthy root
        && !(env.mkdirOk (dirname (backup_path env path root backup_root)))) with h1 | h1
  · simp [h1] at hsucc
  · rcases Bool.eq_false_or_eq_true
        (env.writeOk (backup_path env path root backup_root)) with hw | hw
    · cases hdl : decodeLoop env.decodeFn data [src_encoding, "cp932", "shift_jis"] [] with
      | none => simp [h1, hw, hdl] at hsucc
      | some text =>
        rcases Bool.eq_false_or_eq_true (env.writeOk path) with hwp | hwp
        · simp [h1, hw, hdl, hwp, updateFS, hne]
        · simp [h1, hw, hdl, hwp] at hsucc
    · simp [h1, hw] at hsucc

/-- Witness for C2 at concrete inputs. -/
theorem conversion_success_backup_integrity_witness :
    (backup_and_convert_to_utf8 envW fsW "A.java" none none "shift_jis").1.2 =
      successMsg (backup_path envW "A.java" none none) ∧
    (backup_and_convert_to_utf8 envW fsW "A.java" none none "shift_jis").2
      (backup_path envW "A.java" none none) = some [65] :=
  conversion_success_backup_integrity envW fsW "A.java" none none "shift_jis" [65]
    rfl (by decide) (by decide)

/-! ### Decode fallback ordering (spec-level description) -/

/-- Candidate list with duplicates already tried skipped, keeping first
occurrences (the spec's "skipping duplicates already tried"). -/
def dedupFirst : List String → List String → List String
  | [], _ => []
  | e :: rest, seen =>
    if seen.contains e then dedupFirst rest seen
    else e :: dedupFirst rest (seen ++ [e])

/-- Each candidate attempted first under strict mode, then under replace
mode (the spec's "each first under strict mode and ... retried once under
replace mode"). -/
def strictThenReplace : List String → List (String × Bool)
  | [] => []
  | e :: rest => (e, true) :: (e, false) :: strictThenReplace rest

/-- The first successful attempt wins; no later attempt is made after a
success (the spec's "the first successful decode (strict or replace)
wins"). -/
def firstSuccessful (dec : List Nat → String → Bool → Option String) (data : List Nat) :
    List (String × Bool) → Option String
  | [] => none
  | a :: rest =>
    match dec data a.1 a.2 with
    | some t => some t
    | none => firstSuccessful dec data rest

theorem decodeLoop_eq_firstSuccessful (dec : List Nat → String → Bool → Option String)
    (data : List Nat) :
    ∀ (l seen : List String),
      decodeLoop dec data l seen =
        firstSuccessful dec data (strictThenReplace (dedupFirst l seen))
  | [], _ => rfl
  | e :: rest, seen => by
    by_cases h : e ∈ seen
    · simp [decodeLoop, dedupFirst, h,
        decodeLoop_eq_firstSuccessful dec data rest seen]
    · cases hs : dec data e true with
      | some t => simp [decodeLoop, dedupFirst, strictThenReplace, firstSuccessful, h, hs]
      | none =>
        cases hr : dec data e false with
        | some t =>
          simp [decodeLoop, dedupFirst, strictThenReplace, firstSuccessful, h, hs, hr]
        | none =>
          simp [decodeLoop, dedupFirst, strictThenReplace, firstSuccessful, h, hs, hr,
            decodeLoop_eq_firstSuccessful dec data rest (seen ++ [e])]

/-- C4: the conversion decode stage walks the candidates
`[preferred, cp932, shift_jis]` with duplicates skipped, attempting each
strictly first and in replace mode only when strict raised, and stops at
the first success. -/
theorem decode_fallback_order (dec : List Nat → String → Bool → Option String)
    (data : List Nat) (pref : String) :
    decodeLoop dec data [pref, "cp932", "shift_jis"] [] =
      firstSuccessful dec data
        (strictThenReplace (dedupFirst [pref, "cp932", "shift_jis"] [])) :=
  decodeLoop_eq_firstSuccessful dec data [pref, "cp932", "shift_jis"] []

/-! ### The cp932 fallback claim (C3) -/

/-- Decode behaviour of the CPython codecs on the byte pair `0xFA 0x40`:
strict `shift_jis` raises (0xFA is not a valid Shift_JIS lead byte),
replace-mode `shift_jis` substitutes the bad byte and keeps the following
`@`, and strict `cp932` decodes the pair as the IBM-extension character
U+2170.  Modelled from CPython codec behaviour for this buffer. -/
def pyDec : List Nat → String → Bool → Option String :=
  fun d enc strict =>
    if d = [250, 64] then
      if enc = "shift_jis" then (if strict then none else some "�@")
      else if enc = "cp932" then some "ⅰ"
      else none
    else none

/-- Environment with the `pyDec` codec model and all I/O succeeding. -/
def envC3 : ConvEnv where
  relpathFn := fun p r => some (p ++ "@" ++ r)
  joinFn := fun a b => a ++ "/" ++ b
  mkdirOk := fun _ => true
  writeOk := fun _ => true
  decodeFn := pyDec
  encodeUtf8 := fun s => s.toList.map Char.toNat

/-- One file holding the byte pair `0xFA 0x40`. -/
def fsC3 : FS := fun p => if p = "A.java" then some [250, 64] else none

/-- C3 counterexample: the buffer `0xFA 0x40` fails strict decoding under
the preferred encoding (`shift_jis`) and decodes under strict `cp932`,
yet the conversion writes the replace-mode `shift_jis` decoding, not the
`cp932` decoding. -/
theorem decode_fallback_cp932_counterexample :
    pyDec [250, 64] "shift_jis" true = none ∧
    pyDec [250, 64] "cp932" true = some "ⅰ" ∧
    (backup_and_convert_to_utf8 envC3 fsC3 "A.java" none none "shift_jis").1.1 = true ∧
    (backup_and_convert_to_utf8 envC3 fsC3 "A.java" none none "shift_jis").2 "A.java"
      = some (envC3.encodeUtf8 "�@") ∧
    envC3.encodeUtf8 "�@" ≠ envC3.encodeUtf8 "ⅰ" := by
  decide

/-- C3 amended: when strict decoding under the preferred encoding fails
but its replace-mode decoding succeeds, the conversion succeeds and
overwrites the file with the UTF-8 encoding of that replace-mode text;
strict cp932 is never consulted. -/
theorem preferred_replace_mode_wins (env : ConvEnv) (fs : FS) (path : String)
    (root backup_root : Option String) (src_encoding : String) (data : List Nat) (t : String)
    (hdata : fs path = some data)
    (hmk : (optTruthy backup_root && optTruthy root
      && !(env.mkdirOk (dirname (backup_path env path root backup_root)))) = false)
    (hwb : env.writeOk (backup_path env path root backup_root) = true)
    (hwp : env.writeOk path = true)
    (hstrict : env.decodeFn data src_encoding true = none)
    (hrep : env.decodeFn data src_encoding false = some t) :
    (backup_and_convert_to_utf8 env fs path root backup_root src_encoding).1.1 = true ∧
    (backup_and_convert_to_utf8 env fs path root backup_root src_encoding).2 path
      = some (env.encodeUtf8 t) := by
  have hloop : decodeLoop env.decodeFn data [src_encoding, "cp932", "shift_jis"] []
      = some t := by
    simp [decodeLoop, hstrict, hrep]
  unfold backup_and_convert_to_utf8
  simp [hdata, hmk, hwb, hloop, hwp, updateFS]

/-- Witness for the amended C3 at concrete inputs. -/
theorem preferred_replace_mode_wins_witness :
    (backup_and_convert_to_utf8 envC3 fsC3 "A.java" none none "shift_jis").1.1 = true ∧
    (backup_and_convert_to_utf8 envC3 fsC3 "A.java" none none "shift_jis").2 "A.java"
      = some (envC3.encodeUtf8 "�@") :=
  preferred_replace_mode_wins envC3 fsC3 "A.java" none none "shift_jis" [250, 64]
    "�@" rfl rfl rfl rfl rfl rfl

/-! ### Classification claims -/

/-- A decoder for which every decode succeeds. -/
def decSome : List Nat → String → Bool → Option String := fun _ _ _ => some ""

/-- A decoder for which every decode raises. -/
def decNone : List Nat → String → Bool → Option String := fun _ _ _ => none

/-- C5: without the statistical classifier, classification returns
`("Shift_JIS", 1.0)` when strict shift_jis decoding succeeds and
`("not Shift_JIS", 0.0)` when it raises. -/
theorem classify_without_classifier (dec : List Nat → String → Bool → Option String)
    (data : List Nat) :
    ((dec data "shift_jis" true).isSome = true →
      analyze_file_bytes none dec data = ("Shift_JIS", 1)) ∧
    (dec data "shift_jis" true = none →
      analyze_file_bytes none dec data = ("not Shift_JIS", 0)) := by
  constructor
  · intro h
    simp [analyze_file_bytes, detect_shift_jis_bytes, h]
  · intro h
    simp [analyze_file_bytes, detect_shift_jis_bytes, h]

/-- Witness for C5 at concrete decoders. -/
theorem classify_without_classifier_witness :
    analyze_file_bytes none decSome [1] = ("Shift_JIS", 1) ∧
    analyze_file_bytes none decNone [1] = ("not Shift_JIS", 0) :=
  ⟨(classify_without_classifier decSome [1]).1 rfl,
   (classify_without_classifier decNone [1]).2 rfl⟩

/-- C6: with the classifier present, an alias miss with confidence below
0.6 and a successful strict shift_jis probe yields the heuristic label
with the classifier's confidence carried through unchanged. -/
theorem heuristic_confidence_carried (f : List Nat → Option String × ℚ)
    (dec : List Nat → String → Bool → Option String) (data : List Nat)
    (hmiss : sjisAliasHit (detect_with_chardet (some f) data).1 = false)
    (hconf : (detect_with_chardet (some f) data).2 < (0.6 : ℚ))
    (hprobe : detect_shift_jis_bytes dec data = true) :
    analyze_file_bytes (some f) dec data =
      ("Shift_JIS(heuristic)", (detect_with_chardet (some f) data).2) := by
  simp [analyze_file_bytes, hmiss, hconf, hprobe]

/-- A low-confidence classifier reporting a non-Shift_JIS label. -/
def chLow : List Nat → Option String × ℚ := fun _ => (some "ascii", 0)

/-- Witness for C6 at concrete inputs. -/
theorem heuristic_confidence_carried_witness :
    analyze_file_bytes (some chLow) decSome [1] =
      ("Shift_JIS(heuristic)", (detect_with_chardet (some chLow) [1]).2) :=
  heuristic_confidence_carried chLow decSome [1] (by decide)
    (by norm_num [detect_with_chardet, chLow, orUnknown]) rfl

/-- A classifier reporting the label `s_jis` with high confidence. -/
def chUnderscore : List Nat → Option String × ℚ := fun _ => (some "s_jis", 9/10)

/-- C7 counterexample: the label `s_jis` normalizes into the alias set when
underscores are stripped as the claim prescribes, yet classification does
not return the `Shift_JIS` verdict, because the code strips hyphens only. -/
theorem alias_normalization_counterexample :
    specAliasHit "s_jis" = true ∧
    sjisAliasHit "s_jis" = false ∧
    (analyze_file_bytes (some chUnderscore) decNone [1]).1 ≠ "Shift_JIS" ∧
    (analyze_file_bytes (some chUnderscore) decNone [1]).2 = 9/10 := by
  have h1 : sjisAliasHit "s_jis" = false := by decide
  have h2 : ¬((9 : ℚ)/10 < 0.6) := by norm_num
  have h3 : analyze_file_bytes (some chUnderscore) decNone [1] = ("s_jis", 9/10) := by
    simp [analyze_file_bytes, detect_with_chardet, chUnderscore, orUnknown, h1, h2]
  refine ⟨by decide, h1, ?_, ?_⟩
  · rw [h3]; decide
  · rw [h3]

/-- The returned label of `detect_with_chardet` is never empty. -/
theorem orUnknown_ne_empty (o : Option String) : (orUnknown o != "") = true := by
  cases o with
  | none => decide
  | some s =>
    by_cases h : s = ""
    · subst h; decide
    · simp [orUnknown, h]

/-- C7 amended: classification lowercases the detected label and strips
hyphens only, comparing against the aliases shiftjis, shift_jis, sjis, cp932; it
returns `("Shift_JIS", confidence)` exactly when this test hits. -/
theorem alias_normalization_amended (f : List Nat → Option String × ℚ)
    (dec : List Nat → String → Bool → Option String) (data : List Nat) :
    (sjisAliasHit (detect_with_chardet (some f) data).1 = true →
      analyze_file_bytes (some f) dec data =
        ("Shift_JIS", (detect_with_chardet (some f) data).2)) ∧
    (sjisAliasHit (detect_with_chardet (some f) data).1 = false →
      (analyze_file_bytes (some f) dec data).1 ≠ "Shift_JIS") := by
  have hne : ((detect_with_chardet (some f) data).1 != "") = true :=
    orUnknown_ne_empty (f data).1
  constructor
  · intro hhit
    simp [analyze_file_bytes, hhit, hne]
  · intro hmiss
    have hlab : (detect_with_chardet (some f) data).1 ≠ "Shift_JIS" := by
      intro he
      rw [he] at hmiss
      exact absurd hmiss (by decide)
    have hlab2 : (if (detect_with_chardet (some f) data).1 = ""
        then "unknown" else (detect_with_chardet (some f) data).1) ≠ "Shift_JIS" := by
      split
      · decide
      · exact hlab
    by_cases hconf : (detect_with_chardet (some f) data).2 < (0.6 : ℚ)
    · by_cases hprobe : detect_shift_jis_bytes dec data = true
      · simp [analyze_file_bytes, hmiss, hconf, hprobe]
      · simp [analyze_file_bytes, hmiss, hconf, hprobe, hlab2]
    · simp [analyze_file_bytes, hmiss, hconf, hlab2]

/-- A classifier reporting the hyphenated label `Shift-JIS`. -/
def chHyphen : List Nat → Option String × ℚ := fun _ => (some "Shift-JIS", 7/10)

/-- Witness for the amended C7 at concrete inputs. -/
theorem alias_normalization_amended_witness :
    analyze_file_bytes (some chHyphen) decNone [1] =
      ("Shift_JIS", (detect_with_chardet (some chHyphen) [1]).2) :=
  (alias_normalization_amended chHyphen decNone [1]).1 (by decide)

/-! ### Conversion trigger (C8) -/

theorem listLeads_iff : ∀ (n h : List Char), listLeads n h = true ↔ n <+: h
  | [], h => by simp [listLeads]
  | a :: as, [] => by simp [listLeads]
  | a :: as, b :: bs => by
    simp [listLeads, listLeads_iff as bs, List.cons_prefix_cons]

theorem listHasSub_iff : ∀ (n h : List Char), listHasSub n h = true ↔ n <:+: h
  | n, [] => by simp [listHasSub, List.isEmpty_iff, List.infix_nil]
  | n, b :: bs => by
    rw [listHasSub]
    simp [listLeads_iff, listHasSub_iff n bs, List.infix_cons_iff]

theorem strHasSub_iff (hay needle : String) :
    strHasSub hay needle = true ↔ needle.toList <:+: hay.toList :=
  listHasSub_iff needle.toList hay.toList

/-- C8 counterexample: a verdict label that merely contains `MacRoman` as a
substring (such as a read-error message mentioning a file name) triggers
conversion, although it neither contains `Shift_JIS` nor equals `MacRoman`
or `Windows-1252`. -/
theorem convert_trigger_counterexample :
    shouldConvert true "xMacRomanx" = true ∧
    strHasSub "xMacRomanx" "Shift_JIS" = false ∧
    "xMacRomanx" ≠ "MacRoman" ∧
    "xMacRomanx" ≠ "Windows-1252" := by
  decide

/-- C8 amended: with `--convert` given, conversion is attempted exactly
when the verdict label contains one of the substrings `Shift_JIS`,
`MacRoman` or `Windows-1252` (substring containment for all three, not
equality). -/
theorem convert_trigger_amended (do_convert : Bool) (result : String) :
    shouldConvert do_convert result = true ↔
      do_convert = true ∧
        (("Shift_JIS" : String).toList <:+: result.toList ∨
          ("MacRoman" : String).toList <:+: result.toList ∨
          ("Windows-1252" : String).toList <:+: result.toList) := by
  simp [shouldConvert, strHasSub_iff, or_assoc]

/-! ### Decode exhaustion is unreachable (C10) -/

/-- C10: when replace-mode decoding under the first candidate encoding
never raises (as with the Python `shift_jis` codec), the decode loop always
produces a text, the conversion never reports the decode-exhausted
failure, and — once the backup stage has passed — the only remaining
failure source is the UTF-8 overwrite of the original file. -/
theorem decode_exhaustion_unreachable (env : ConvEnv) (fs : FS) (path : String)
    (root backup_root : Option String) (src_encoding : String)
    (hrep : ∀ d : List Nat, (env.decodeFn d src_encoding false).isSome = true) :
    (∀ d : List Nat,
      decodeLoop env.decodeFn d [src_encoding, "cp932", "shift_jis"] [] ≠ none) ∧
    (backup_and_convert_to_utf8 env fs path root backup_root src_encoding).1
      ≠ (false, decodeErrMsg) ∧
    (∀ data : List Nat, fs path = some data →
      (optTruthy backup_root && optTruthy root
        && !(env.mkdirOk (dirname (backup_path env path root backup_root)))) = false →
      env.writeOk (backup_path env path root backup_root) = true →
      ((backup_and_convert_to_utf8 env fs path root backup_root src_encoding).1.1 = true ∨
        (backup_and_convert_to_utf8 env fs path root backup_root src_encoding).1
          = (false, writeErrMsg))) := by
  have hloop : ∀ d : List Nat,
      decodeLoop env.decodeFn d [src_encoding, "cp932", "shift_jis"] [] ≠ none := by
    intro d
    cases hs : env.decodeFn d src_encoding true with
    | some t => simp [decodeLoop, hs]
    | none =>
      cases hr : env.decodeFn d src_encoding false with
      | some t => simp [decodeLoop, hs, hr]
      | none =>
        have := hrep d
        rw [hr] at this
        exact absurd this (by decide)
  refine ⟨hloop, ?_, ?_⟩
  · unfold backup_and_convert_to_utf8
    cases hfp : fs path with
    | none => simp [readErrMsg, decodeErrMsg]
    | some data =>
      rcases Bool.eq_false_or_eq_true
          (optTruthy backup_root && optTruthy root
            && !(env.mkdirOk (dirname (backup_path env path root backup_root)))) with
        h1 | h1
      · simp [h1, backupDirErrMsg, decodeErrMsg]
      · rcases Bool.eq_false_or_eq_true
            (env.writeOk (backup_path env path root backup_root)) with hw | hw
        · cases hdl : decodeLoop env.decodeFn data
              [src_encoding, "cp932", "shift_jis"] [] with
          | none => exact absurd hdl (hloop data)
          | some text =>
            rcases Bool.eq_false_or_eq_true (env.writeOk path) with hwp | hwp
            · simp [h1, hw, hdl, hwp]
            · simp [h1, hw, hdl, hwp, writeErrMsg, decodeErrMsg]
        · simp [h1, hw, backupErrMsg, decodeErrMsg]
  · intro data hdata hmk hwb
    unfold backup_and_convert_to_utf8
    simp only [hdata]
    cases hdl : decodeLoop env.decodeFn data [src_encoding, "cp932", "shift_jis"] [] with
    | none => exact absurd hdl (hloop data)
    | some text =>
      rcases Bool.eq_false_or_eq_true (env.writeOk path) with hwp | hwp
      · simp [hmk, hwb, hdl, hwp]
      · simp [hmk, hwb, hdl, hwp]

/-- Witness for C10: with a replace decoder that never raises, the
conversion result is never the decode-exhausted failure. -/
theorem decode_exhaustion_unreachable_witness :
    (backup_and_convert_to_utf8 envW fsW "A.java" none none "shift_jis").1
      ≠ (false, decodeErrMsg) :=
  (decode_exhaustion_unreachable envW fsW "A.java" none none "shift_jis"
    (fun _ => rfl)).2.1
